import Mathlib

/-!
Verification of the two AWS-Lambda greeting handlers of this repository:
`http-get-lamda-function..py` (proxy variant) and
`non-proxy-lambda-processor.py` (plain variant), over a shallow embedding
of the relevant Python semantics (dynamically typed values, dictionary
lookup with defaults, truthiness, f-string coercion via `str()`, and
`json.dumps` with its default arguments).
-/

set_option linter.unusedVariables false

/-- Embedding of the Python values that can occur in a JSON-decoded Lambda
event and in the handlers' results: `None`, booleans, integers, strings,
lists and string-keyed dictionaries (a dictionary is an association list in
insertion order, keys unique by construction of the inputs we consider;
lookup takes the first match). -/
inductive PyVal where
  | none
  | bool (b : Bool)
  | int (n : Int)
  | str (s : String)
  | list (xs : List PyVal)
  | dict (entries : List (String × PyVal))

/-- First-match lookup in an association list, the embedding of Python
dictionary key lookup. -/
def lookupKey : List (String × PyVal) → String → Option PyVal
  | [], _ => Option.none
  | (k, v) :: rest, key => if k = key then some v else lookupKey rest key

/-- Python truthiness (`bool(v)`): `None` and `False` are falsy, numbers are
falsy iff zero, strings and containers are falsy iff empty. -/
def truthy : PyVal → Bool
  | PyVal.none => false
  | PyVal.bool b => b
  | PyVal.int n => decide (n ≠ 0)
  | PyVal.str s => decide (s ≠ "")
  | PyVal.list xs => !xs.isEmpty
  | PyVal.dict es => !es.isEmpty

/-- The error message our embedding uses for Python's `AttributeError`
raised when `.get` is called on a value that is not a dictionary. -/
def attrError : String := "AttributeError: object has no attribute get"

/-- Embedding of Python's `v.get(key, default)`: on a dictionary it returns
the stored value or the default; on any other value the attribute access
raises `AttributeError`, which we model as `Except.error`. -/
def pyGetD (v : PyVal) (key : String) (default : PyVal) : Except String PyVal :=
  match v with
  | PyVal.dict es => Except.ok ((lookupKey es key).getD default)
  | _ => Except.error attrError

/-- Embedding of Python's one-argument `v.get(key)`, whose default is
`None`. -/
def pyGet (v : PyVal) (key : String) : Except String PyVal :=
  pyGetD v key PyVal.none

/-- Lowercase hexadecimal digit for `d < 16`, as produced by CPython's
`'x'`-format used in `\xXX`/`\uXXXX` escapes. -/
def toHexDigit (d : Nat) : Char :=
  if d < 10 then Char.ofNat (48 + d) else Char.ofNat (87 + d)

/-- The four lowercase hexadecimal digits of `n < 0x10000`, most significant
first, as in a `\uXXXX` escape. -/
def toHex4 (n : Nat) : List Char :=
  [toHexDigit (n / 4096), toHexDigit (n / 256 % 16), toHexDigit (n / 16 % 16), toHexDigit (n % 16)]

/-- Value of one hexadecimal digit character, accepting both cases, as a
JSON parser does when reading a `\uXXXX` escape. -/
def fromHexDigit (c : Char) : Option Nat :=
  if 48 ≤ c.toNat ∧ c.toNat ≤ 57 then some (c.toNat - 48)
  else if 97 ≤ c.toNat ∧ c.toNat ≤ 102 then some (c.toNat - 87)
  else if 65 ≤ c.toNat ∧ c.toNat ≤ 70 then some (c.toNat - 55)
  else Option.none

/-- Value of four hexadecimal digit characters, most significant first. -/
def fromHex4 (h3 h2 h1 h0 : Char) : Option Nat :=
  (fromHexDigit h3).bind fun d3 => (fromHexDigit h2).bind fun d2 =>
    (fromHexDigit h1).bind fun d1 => (fromHexDigit h0).map fun d0 =>
      ((d3 * 16 + d2) * 16 + d1) * 16 + d0

/-- Embedding of CPython's `json.encoder.py_encode_basestring_ascii` on one
character (the default `ensure_ascii=True` serialization): the two-character
escapes for quote, backslash, newline, tab, carriage return, backspace and
form feed; `\uXXXX` for the remaining control characters; characters
`0x20`–`0x7e` literally; `\uXXXX` for other characters of the Basic
Multilingual Plane; and a UTF-16 surrogate pair of `\uXXXX` escapes for
characters beyond it. -/
def jsonEscapeChar (c : Char) : List Char :=
  if c = '"' then ['\\', '"']
  else if c = '\\' then ['\\', '\\']
  else if c = '\n' then ['\\', 'n']
  else if c = '\t' then ['\\', 't']
  else if c = '\r' then ['\\', 'r']
  else if c.toNat = 8 then ['\\', 'b']
  else if c.toNat = 12 then ['\\', 'f']
  else if c.toNat < 0x20 then '\\' :: 'u' :: toHex4 c.toNat
  else if c.toNat ≤ 0x7e then [c]
  else if c.toNat < 0x10000 then '\\' :: 'u' :: toHex4 c.toNat
  else
    '\\' :: 'u' :: toHex4 (0xd800 + (c.toNat - 0x10000) / 1024) ++
      '\\' :: 'u' :: toHex4 (0xdc00 + (c.toNat - 0x10000) % 1024)

/-- JSON-escape every character of a list in order. -/
def escapeList : List Char → List Char
  | [] => []
  | c :: cs => jsonEscapeChar c ++ escapeList cs

/-- Embedding of `json.dumps` applied to a Python string: the escaped
characters wrapped in double quotes. -/
def jsonQuote (s : String) : String :=
  "\"" ++ String.mk (escapeList s.data) ++ "\""

/-- The comma-joined `"key": value` entries of a string-valued JSON object,
with `json.dumps`' default separators `", "` and `": "`. -/
def dumpEntries : List (String × String) → String
  | [] => ""
  | [kv] => jsonQuote kv.1 ++ ": " ++ jsonQuote kv.2
  | kv :: rest => jsonQuote kv.1 ++ ": " ++ jsonQuote kv.2 ++ ", " ++ dumpEntries rest

/-- Embedding of `json.dumps` with default arguments applied to a Python
dictionary whose keys and values are all strings (the only shape the
handlers serialize: `response_data` has the two string fields `message` and
`status`): entries in insertion order between braces. -/
def jsonDumpsStrObj (fields : List (String × String)) : String :=
  "\x7b" ++ dumpEntries fields ++ "\x7d"

/-- Python `repr()` of one string character once the quote character is
fixed (see `pyRepr` for the conventions modelled). -/
def reprEscapeChar (q : Char) (c : Char) : List Char :=
  if c = '\\' then ['\\', '\\']
  else if c = q then ['\\', q]
  else if c = '\n' then ['\\', 'n']
  else if c = '\r' then ['\\', 'r']
  else if c = '\t' then ['\\', 't']
  else if c.toNat < 0x20 ∨ c.toNat = 0x7f then
    ['\\', 'x', toHexDigit (c.toNat / 16), toHexDigit (c.toNat % 16)]
  else [c]

/-- Escape every character of a string body for `repr()`, given the chosen
quote character. -/
def escapeListRepr (q : Char) : List Char → List Char
  | [] => []
  | c :: cs => reprEscapeChar q c ++ escapeListRepr q cs

/-- Python `repr()` of a string: quote choice as in CPython, then the
escaped characters between the quotes. -/
def reprStrPy (s : String) : String :=
  let quoteCh : Char :=
    if s.data.contains (Char.ofNat 39) ∧ ¬ s.data.contains '"' then '"' else Char.ofNat 39
  String.mk (quoteCh :: (escapeListRepr quoteCh s.data) ++ [quoteCh])

/-- Comma-space join, as Python's `", ".join`. -/
def joinComma : List String → String
  | [] => ""
  | [s] => s
  | s :: rest => s ++ ", " ++ joinComma rest

mutual

/-- Embedding of Python's `repr()` on our value type. For strings it follows
CPython's rule of quoting with single quotes — double quotes when the string
contains a single quote but no double quote — and escaping the backslash,
the chosen quote, newline, carriage return, tab, and the remaining C0
control characters and DEL as `\xXX`; other characters (including non-ASCII
printable ones, which CPython leaves literal) are kept literal. -/
def pyRepr : PyVal → String
  | PyVal.none => "None"
  | PyVal.bool true => "True"
  | PyVal.bool false => "False"
  | PyVal.int n => toString n
  | PyVal.str s => reprStrPy s
  | PyVal.list xs => "[" ++ joinComma (pyReprList xs) ++ "]"
  | PyVal.dict es => "\x7b" ++ joinComma (pyReprEntries es) ++ "\x7d"

/-- The `repr()`s of the elements of a list. -/
def pyReprList : List PyVal → List String
  | [] => []
  | v :: vs => pyRepr v :: pyReprList vs

/-- The `repr(key): repr(value)` renderings of a dictionary's entries. -/
def pyReprEntries : List (String × PyVal) → List String
  | [] => []
  | (k, v) :: es => (reprStrPy k ++ ": " ++ pyRepr v) :: pyReprEntries es

end

/-- Embedding of Python's `str()`, the conversion an f-string interpolation
`f"...{name}..."` performs: the string itself for strings, `repr()`-based
rendering for everything else (with `None`, booleans and integers printed
as CPython prints them). -/
def pyStr (v : PyVal) : String :=
  match v with
  | PyVal.str s => s
  | v => pyRepr v

namespace HttpGetLambdaFunction

/-- Embedding of `lambda_handler` of `src/http-get-lamda-function..py`:
`name` starts as `"World"`; if `event.get('queryStringParameters')` is
truthy, `name` becomes `event.get('queryStringParameters').get('name', name)`
(the attribute access raising if that value is not a dictionary, which the
`Except` monad propagates); `response_data` is the dictionary with fields
`message = f"Hello, {name}! Your request was successful."` and
`status = "success"`; the returned value is the dictionary with
`statusCode = 200`, the `Content-Type: application/json` header mapping,
and `body = json.dumps(response_data)`. -/
def lambda_handler (event context : PyVal) : Except String PyVal := do
  let name0 : PyVal := PyVal.str "World"
  let q ← pyGet event "queryStringParameters"
  let name ←
    if truthy q then
      pyGet event "queryStringParameters" >>= fun q2 => pyGetD q2 "name" name0
    else
      pure name0
  let message := "Hello, " ++ pyStr name ++ "! Your request was successful."
  let response_data : List (String × String) := [("message", message), ("status", "success")]
  pure (PyVal.dict
    [("statusCode", PyVal.int 200),
     ("headers", PyVal.dict [("Content-Type", PyVal.str "application/json")]),
     ("body", PyVal.str (jsonDumpsStrObj response_data))])

end HttpGetLambdaFunction

namespace NonProxyLambdaProcessor

/-- Embedding of `lambda_handler` of `src/non-proxy-lambda-processor.py`:
`name = event.get('name', 'World')` (raising `AttributeError` when the
event is not a dictionary), and the result is the one-field dictionary
`greeting = f"Hello from non-proxy, {name}!"`. -/
def lambda_handler (event context : PyVal) : Except String PyVal := do
  let name ← pyGetD event "name" (PyVal.str "World")
  pure (PyVal.dict [("greeting", PyVal.str ("Hello from non-proxy, " ++ pyStr name ++ "!"))])

end NonProxyLambdaProcessor

/-- Prepend a decoded character to the result of decoding the rest of a
JSON string literal. -/
def consFst (c : Char) : Option (List Char × List Char) → Option (List Char × List Char)
  | some (s, r) => some (c :: s, r)
  | Option.none => Option.none

/-- The character denoted by a one-letter JSON escape `\c`. -/
def unescEsc (e : Char) : Option Char :=
  if e = '"' then some '"'
  else if e = '\\' then some '\\'
  else if e = '/' then some '/'
  else if e = 'n' then some '\n'
  else if e = 't' then some '\t'
  else if e = 'r' then some '\r'
  else if e = 'b' then some (Char.ofNat 8)
  else if e = 'f' then some (Char.ofNat 12)
  else Option.none

/-- Decode the second half of a UTF-16 surrogate pair: given the value `n`
of a high surrogate already read, expects `\uXXXX` with a low surrogate
value and combines the two into the astral-plane character. -/
def decodeSurrPair (n : Nat) : List Char → Option (Char × List Char)
  | b1 :: b2 :: g3 :: g2 :: g1 :: g0 :: rest =>
    if b1 = '\\' ∧ b2 = 'u' then
      (fromHex4 g3 g2 g1 g0).bind fun m =>
        if 0xdc00 ≤ m ∧ m < 0xe000 then
          some (Char.ofNat (0x10000 + (n - 0xd800) * 1024 + (m - 0xdc00)), rest)
        else Option.none
    else Option.none
  | _ => Option.none

/-- Decode a `\uXXXX` escape body (the four hex digits and what follows):
a non-surrogate value denotes its own character; a high surrogate must be
followed by a low surrogate (`decodeSurrPair`); a lone surrogate is
malformed (no `Char` can represent it). -/
def decodeUEscape : List Char → Option (Char × List Char)
  | h3 :: h2 :: h1 :: h0 :: rest =>
    (fromHex4 h3 h2 h1 h0).bind fun n =>
      if n < 0xd800 ∨ 0xdfff < n then some (Char.ofNat n, rest)
      else if n < 0xdc00 then decodeSurrPair n rest
      else Option.none
  | _ => Option.none

/-- Decode one JSON escape sequence, everything after the backslash:
either a one-letter escape or a `\uXXXX` escape. -/
def decodeEscape : List Char → Option (Char × List Char)
  | [] => Option.none
  | e :: rest => if e = 'u' then decodeUEscape rest else (unescEsc e).map fun d => (d, rest)

/-- The decoding loop for a JSON string literal body: reads decoded
characters up to the closing quote; `fuel` bounds the number of characters
produced (each iteration consumes at least one input character, so the
input length is always enough fuel). -/
def unescLoop : Nat → List Char → Option (List Char × List Char)
  | _, [] => Option.none
  | 0, _ :: _ => Option.none
  | fuel + 1, c :: rest =>
    if c = '"' then some ([], rest)
    else if c = '\\' then
      match decodeEscape rest with
      | some (d, rest2) => consFst d (unescLoop fuel rest2)
      | Option.none => Option.none
    else consFst c (unescLoop fuel rest)

/-- JSON string-literal decoding, the inverse direction of `escapeList`:
reads characters after the opening quote up to the closing quote, resolving
the one-letter escapes, `\uXXXX` escapes, and UTF-16 surrogate pairs of
`\uXXXX` escapes; returns the decoded characters and the input remaining
after the closing quote, or `none` for a malformed literal (unterminated,
bad escape, or a lone surrogate). -/
def unescAux (l : List Char) : Option (List Char × List Char) :=
  unescLoop l.length l

/-- Decode one JSON string literal at the head of the input: an opening
quote, then the escaped body up to the closing quote; returns the decoded
string and the remaining input. -/
def parseStrLit (l : List Char) : Option (String × List Char) :=
  match l with
  | c :: rest =>
    if c = '"' then
      match unescAux rest with
      | some (s, r) => some (String.mk s, r)
      | Option.none => Option.none
    else Option.none
  | [] => Option.none

/-- Decode one `"key": "value"` pair (JSON object member with a string
value, `": "` separator as `json.dumps` emits it). -/
def parseKV (l : List Char) : Option (String × String × List Char) :=
  match parseStrLit l with
  | some (k, r1) =>
    match r1 with
    | ':' :: ' ' :: r2 =>
      match parseStrLit r2 with
      | some (v, r3) => some (k, v, r3)
      | Option.none => Option.none
    | _ => Option.none
  | Option.none => Option.none

/-- JSON-decode a serialized object with exactly two string-valued members
(the shape of the proxy handler's body): returns the two key/value pairs in
serialization order. -/
def decodeTwoStrObj (s : String) : Option ((String × String) × (String × String)) :=
  match s.data with
  | c :: r0 =>
    if c = Char.ofNat 123 then
      match parseKV r0 with
      | some (k1, v1, r1) =>
        match r1 with
        | ',' :: ' ' :: r2 =>
          match parseKV r2 with
          | some (k2, v2, r3) =>
            if r3 = [Char.ofNat 125] then some ((k1, v1), (k2, v2)) else Option.none
          | Option.none => Option.none
        | _ => Option.none
      | Option.none => Option.none
    else Option.none
  | [] => Option.none

/-! ### Round-trip lemmas: decoding inverts `json.dumps` escaping -/

theorem fromHexDigit_toHexDigit (d : Nat) (hd : d < 16) :
    fromHexDigit (toHexDigit d) = some d := by
  interval_cases d <;> decide

theorem fromHex4_toHex4 (n : Nat) (hn : n < 0x10000) :
    fromHex4 (toHexDigit (n / 4096)) (toHexDigit (n / 256 % 16))
      (toHexDigit (n / 16 % 16)) (toHexDigit (n % 16)) = some n := by
  simp only [fromHex4, fromHexDigit_toHexDigit (n / 4096) (by omega),
    fromHexDigit_toHexDigit (n / 256 % 16) (by omega),
    fromHexDigit_toHexDigit (n / 16 % 16) (by omega),
    fromHexDigit_toHexDigit (n % 16) (by omega)]
  show some (((n / 4096 * 16 + n / 256 % 16) * 16 + n / 16 % 16) * 16 + n % 16) = some n
  congr 1
  omega

theorem char_valid_nat (c : Char) :
    c.toNat < 0xd800 ∨ (0xdfff < c.toNat ∧ c.toNat < 0x110000) := c.valid

theorem char_ne_of_toNat_ne (c d : Char) (h : c.toNat ≠ d.toNat) : c ≠ d :=
  fun he => h (he ▸ rfl)

theorem unescLoop_plain (fuel : Nat) (t : List Char) (c : Char)
    (h1 : ¬ c = '"') (h2 : ¬ c = '\\') :
    unescLoop (fuel + 1) (c :: t) = consFst c (unescLoop fuel t) := by
  simp only [unescLoop, if_neg h1, if_neg h2]

theorem unescLoop_slash (fuel : Nat) (t : List Char) :
    unescLoop (fuel + 1) ('\\' :: t) =
      match decodeEscape t with
      | some (d, r) => consFst d (unescLoop fuel r)
      | Option.none => Option.none := rfl

theorem decodeSurrPair_eq (n : Nat) (g3 g2 g1 g0 : Char) (m : Nat) (t : List Char)
    (hx : fromHex4 g3 g2 g1 g0 = some m) (hm : 0xdc00 ≤ m ∧ m < 0xe000) :
    decodeSurrPair n ('\\' :: 'u' :: g3 :: g2 :: g1 :: g0 :: t) =
      some (Char.ofNat (0x10000 + (n - 0xd800) * 1024 + (m - 0xdc00)), t) := by
  show (if ('\\' : Char) = '\\' ∧ ('u' : Char) = 'u' then
      (fromHex4 g3 g2 g1 g0).bind fun m =>
        if 0xdc00 ≤ m ∧ m < 0xe000 then
          some (Char.ofNat (0x10000 + (n - 0xd800) * 1024 + (m - 0xdc00)), t)
        else Option.none
    else Option.none) = _
  rw [if_pos ⟨rfl, rfl⟩, hx]
  exact if_pos hm

theorem decodeUEscape_single (h3 h2 h1 h0 : Char) (n : Nat) (t : List Char)
    (hx : fromHex4 h3 h2 h1 h0 = some n) (hns : n < 0xd800 ∨ 0xdfff < n) :
    decodeUEscape (h3 :: h2 :: h1 :: h0 :: t) = some (Char.ofNat n, t) := by
  show ((fromHex4 h3 h2 h1 h0).bind fun n =>
    if n < 0xd800 ∨ 0xdfff < n then some (Char.ofNat n, t)
    else if n < 0xdc00 then decodeSurrPair n t
    else Option.none) = _
  rw [hx]
  exact if_pos hns

theorem decodeUEscape_pair (h3 h2 h1 h0 : Char) (n : Nat) (t : List Char)
    (hx : fromHex4 h3 h2 h1 h0 = some n) (hlo : 0xd800 ≤ n) (hhi : n < 0xdc00) :
    decodeUEscape (h3 :: h2 :: h1 :: h0 :: t) = decodeSurrPair n t := by
  show ((fromHex4 h3 h2 h1 h0).bind fun n =>
    if n < 0xd800 ∨ 0xdfff < n then some (Char.ofNat n, t)
    else if n < 0xdc00 then decodeSurrPair n t
    else Option.none) = _
  rw [hx]
  show (if n < 0xd800 ∨ 0xdfff < n then some (Char.ofNat n, t)
    else if n < 0xdc00 then decodeSurrPair n t
    else Option.none) = _
  rw [if_neg (by omega), if_pos hhi]

theorem jsonEscapeChar_ne_basic (c : Char) (h : 0x20 ≤ c.toNat) :
    ¬ c = '\n' ∧ ¬ c = '\t' ∧ ¬ c = '\r' ∧ ¬ c.toNat = 8 ∧ ¬ c.toNat = 12 :=
  ⟨char_ne_of_toNat_ne c '\n' (by rw [show ('\n').toNat = 10 from rfl]; omega),
   char_ne_of_toNat_ne c '\t' (by rw [show ('\t').toNat = 9 from rfl]; omega),
   char_ne_of_toNat_ne c '\r' (by rw [show ('\r').toNat = 13 from rfl]; omega),
   by omega, by omega⟩

theorem jsonEscapeChar_uform (c : Char) (hq : ¬ c = '"') (hb : ¬ c = '\\')
    (hn : ¬ c = '\n') (ht : ¬ c = '\t') (hr : ¬ c = '\r')
    (h8 : ¬ c.toNat = 8) (h12 : ¬ c.toNat = 12)
    (hrange : c.toNat < 0x20 ∨ (0x7e < c.toNat ∧ c.toNat < 0x10000)) :
    jsonEscapeChar c = '\\' :: 'u' :: toHex4 c.toNat := by
  rw [jsonEscapeChar, if_neg hq, if_neg hb, if_neg hn, if_neg ht, if_neg hr,
    if_neg h8, if_neg h12]
  rcases hrange with h | h
  · rw [if_pos h]
  · rw [if_neg (by omega), if_neg (by omega), if_pos (by omega)]

theorem jsonEscapeChar_plain (c : Char) (hq : ¬ c = '"') (hb : ¬ c = '\\')
    (hlo : 0x20 ≤ c.toNat) (hhi : c.toNat ≤ 0x7e) :
    jsonEscapeChar c = [c] := by
  obtain ⟨hn, ht, hr, h8, h12⟩ := jsonEscapeChar_ne_basic c hlo
  rw [jsonEscapeChar, if_neg hq, if_neg hb, if_neg hn, if_neg ht, if_neg hr,
    if_neg h8, if_neg h12, if_neg (by omega), if_pos hhi]

theorem jsonEscapeChar_astral (c : Char) (h : 0x10000 ≤ c.toNat) :
    jsonEscapeChar c =
      '\\' :: 'u' :: toHex4 (0xd800 + (c.toNat - 0x10000) / 1024) ++
        '\\' :: 'u' :: toHex4 (0xdc00 + (c.toNat - 0x10000) % 1024) := by
  have hq : ¬ c = '"' := char_ne_of_toNat_ne c '"' (by rw [show ('"').toNat = 34 from rfl]; omega)
  have hb : ¬ c = '\\' :=
    char_ne_of_toNat_ne c '\\' (by rw [show ('\\').toNat = 92 from rfl]; omega)
  obtain ⟨hn, ht, hr, h8, h12⟩ := jsonEscapeChar_ne_basic c (by omega)
  rw [jsonEscapeChar, if_neg hq, if_neg hb, if_neg hn, if_neg ht, if_neg hr,
    if_neg h8, if_neg h12, if_neg (by omega), if_neg (by omega), if_neg (by omega)]

/-- One decoding step inverts the escaping of one character: reading the
escape of `c` from the head of the input yields exactly `c`. -/
theorem unescLoop_escapeChar (c : Char) (t : List Char) (fuel : Nat) :
    unescLoop (fuel + 1) (jsonEscapeChar c ++ t) = consFst c (unescLoop fuel t) := by
  have hvalid := char_valid_nat c
  by_cases hq : c = '"'
  · subst hq; rfl
  by_cases hb : c = '\\'
  · subst hb; rfl
  by_cases hn : c = '\n'
  · subst hn; rfl
  by_cases ht : c = '\t'
  · subst ht; rfl
  by_cases hr : c = '\r'
  · subst hr; rfl
  by_cases h8 : c.toNat = 8
  · have hc : c = Char.ofNat 8 := by rw [← h8, Char.ofNat_toNat]
    subst hc; rfl
  by_cases h12 : c.toNat = 12
  · have hc : c = Char.ofNat 12 := by rw [← h12, Char.ofNat_toNat]
    subst hc; rfl
  by_cases hctl : c.toNat < 0x20
  · rw [jsonEscapeChar_uform c hq hb hn ht hr h8 h12 (Or.inl hctl)]
    rw [toHex4]
    simp only [List.cons_append, List.nil_append]
    rw [unescLoop_slash fuel]
    rw [show decodeEscape ('u' :: toHexDigit (c.toNat / 4096) :: toHexDigit (c.toNat / 256 % 16) ::
      toHexDigit (c.toNat / 16 % 16) :: toHexDigit (c.toNat % 16) :: t) =
      decodeUEscape (toHexDigit (c.toNat / 4096) :: toHexDigit (c.toNat / 256 % 16) ::
        toHexDigit (c.toNat / 16 % 16) :: toHexDigit (c.toNat % 16) :: t) from rfl]
    rw [decodeUEscape_single _ _ _ _ c.toNat t (fromHex4_toHex4 c.toNat (by omega))
      (Or.inl (by omega)), Char.ofNat_toNat]
  by_cases hbmp : c.toNat ≤ 0x7e
  · rw [jsonEscapeChar_plain c hq hb (by omega) hbmp]
    simp only [List.cons_append, List.nil_append]
    exact unescLoop_plain fuel t c hq hb
  by_cases hbig : c.toNat < 0x10000
  · rw [jsonEscapeChar_uform c hq hb hn ht hr h8 h12 (Or.inr ⟨by omega, hbig⟩)]
    rw [toHex4]
    simp only [List.cons_append, List.nil_append]
    rw [unescLoop_slash fuel]
    rw [show decodeEscape ('u' :: toHexDigit (c.toNat / 4096) :: toHexDigit (c.toNat / 256 % 16) ::
      toHexDigit (c.toNat / 16 % 16) :: toHexDigit (c.toNat % 16) :: t) =
      decodeUEscape (toHexDigit (c.toNat / 4096) :: toHexDigit (c.toNat / 256 % 16) ::
        toHexDigit (c.toNat / 16 % 16) :: toHexDigit (c.toNat % 16) :: t) from rfl]
    rw [decodeUEscape_single _ _ _ _ c.toNat t (fromHex4_toHex4 c.toNat hbig)
      (by omega), Char.ofNat_toNat]
  · -- astral plane: the escape is a surrogate pair of two \uXXXX escapes
    have hval : c.toNat < 0x110000 := by omega
    set n := c.toNat - 0x10000 with hdefn
    have hnlt : n < 0x100000 := by omega
    have hdiv : n / 1024 < 1024 := by omega
    rw [jsonEscapeChar_astral c (by omega)]
    rw [toHex4, toHex4]
    simp only [List.cons_append, List.nil_append]
    rw [unescLoop_slash fuel]
    set a3 := toHexDigit ((0xd800 + n / 1024) / 4096)
    set a2 := toHexDigit ((0xd800 + n / 1024) / 256 % 16)
    set a1 := toHexDigit ((0xd800 + n / 1024) / 16 % 16)
    set a0 := toHexDigit ((0xd800 + n / 1024) % 16)
    set b3 := toHexDigit ((0xdc00 + n % 1024) / 4096)
    set b2 := toHexDigit ((0xdc00 + n % 1024) / 256 % 16)
    set b1 := toHexDigit ((0xdc00 + n % 1024) / 16 % 16)
    set b0 := toHexDigit ((0xdc00 + n % 1024) % 16)
    rw [show decodeEscape ('u' :: a3 :: a2 :: a1 :: a0 :: ('\\' :: 'u' :: b3 :: b2 :: b1 :: b0 :: t)) =
      decodeUEscape (a3 :: a2 :: a1 :: a0 :: ('\\' :: 'u' :: b3 :: b2 :: b1 :: b0 :: t)) from rfl]
    rw [decodeUEscape_pair a3 a2 a1 a0 (0xd800 + n / 1024) _
      (fromHex4_toHex4 (0xd800 + n / 1024) (by omega)) (by omega) (by omega)]
    rw [decodeSurrPair_eq (0xd800 + n / 1024) b3 b2 b1 b0 (0xdc00 + n % 1024) t
      (fromHex4_toHex4 (0xdc00 + n % 1024) (by omega)) ⟨by omega, by omega⟩]
    have harith : 0x10000 + (0xd800 + n / 1024 - 0xd800) * 1024 + (0xdc00 + n % 1024 - 0xdc00)
        = c.toNat := by omega
    rw [harith, Char.ofNat_toNat]

set_option maxHeartbeats 1000000 in
theorem jsonEscapeChar_length (c : Char) : 1 ≤ (jsonEscapeChar c).length := by
  rw [jsonEscapeChar]
  split_ifs <;> simp [toHex4]

theorem escapeList_length (s : List Char) : s.length ≤ (escapeList s).length := by
  induction s with
  | nil => simp [escapeList]
  | cons c cs ih =>
    rw [escapeList, List.length_append, List.length_cons]
    have := jsonEscapeChar_length c
    omega

/-- Decoding inverts escaping: reading the escaped form of `s` followed by
a closing quote recovers exactly `s` and the input after the quote, for any
sufficient fuel. -/
theorem unescLoop_escapeList (s : List Char) (t : List Char) (fuel : Nat)
    (hf : s.length + 1 ≤ fuel) :
    unescLoop fuel (escapeList s ++ '"' :: t) = some (s, t) := by
  induction s generalizing fuel t with
  | nil =>
    obtain ⟨f, rfl⟩ : ∃ f, fuel = f + 1 := ⟨fuel - 1, by omega⟩
    rfl
  | cons c cs ih =>
    obtain ⟨f, rfl⟩ : ∃ f, fuel = f + 1 := ⟨fuel - 1, by omega⟩
    rw [escapeList, List.append_assoc, unescLoop_escapeChar,
      ih t f (by simp only [List.length_cons] at hf; omega)]
    rfl

theorem unescAux_escapeList (s t : List Char) :
    unescAux (escapeList s ++ '"' :: t) = some (s, t) := by
  refine unescLoop_escapeList s t _ ?_
  rw [List.length_append, List.length_cons]
  have := escapeList_length s
  omega

theorem jsonQuote_data (s : String) (t : List Char) :
    (jsonQuote s).data ++ t = '"' :: (escapeList s.data ++ '"' :: t) := by
  have h1 : (jsonQuote s).data = '"' :: escapeList s.data ++ ['"'] := rfl
  rw [h1]
  simp [List.append_assoc]

theorem parseStrLit_quote (s : String) (t : List Char) :
    parseStrLit ((jsonQuote s).data ++ t) = some (s, t) := by
  rw [jsonQuote_data]
  show (match unescAux (escapeList s.data ++ '"' :: t) with
    | some (a, r) => some (String.mk a, r)
    | Option.none => Option.none) = some (s, t)
  rw [unescAux_escapeList]

theorem parseKV_quote (k v : String) (t : List Char) :
    parseKV ((jsonQuote k).data ++ ':' :: ' ' :: ((jsonQuote v).data ++ t)) = some (k, v, t) := by
  simp only [parseKV, parseStrLit_quote]

theorem jsonDumpsStrObj_two_data (k1 v1 k2 v2 : String) :
    (jsonDumpsStrObj [(k1, v1), (k2, v2)]).data =
      Char.ofNat 123 :: ((jsonQuote k1).data ++ ':' :: ' ' :: ((jsonQuote v1).data ++
        ',' :: ' ' :: ((jsonQuote k2).data ++ ':' :: ' ' :: ((jsonQuote v2).data ++
          [Char.ofNat 125])))) := by
  simp only [jsonDumpsStrObj, dumpEntries, String.data_append, List.append_assoc]
  rfl

/-- Decoding a `json.dumps`-serialized two-field string object recovers
exactly its two key/value pairs. -/
theorem decodeTwoStrObj_dumps (k1 v1 k2 v2 : String) :
    decodeTwoStrObj (jsonDumpsStrObj [(k1, v1), (k2, v2)]) = some ((k1, v1), (k2, v2)) := by
  rw [decodeTwoStrObj, jsonDumpsStrObj_two_data]
  simp [parseKV_quote]

/-! ### Helper definitions and evaluation lemmas for the handlers -/

theorem except_ok_bind {α β γ : Type} (a : α) (f : α → Except γ β) :
    (Except.ok a : Except γ α) >>= f = f a := rfl

theorem except_error_bind {α β γ : Type} (e : γ) (f : α → Except γ β) :
    (Except.error e : Except γ α) >>= f = Except.error e := rfl

theorem except_map_ok {α β γ : Type} (f : α → β) (a : α) :
    f <$> (Except.ok a : Except γ α) = Except.ok (f a) := rfl

theorem except_map_error {α β γ : Type} (f : α → β) (e : γ) :
    f <$> (Except.error e : Except γ α) = Except.error e := rfl

theorem except_pure {α γ : Type} (a : α) : (pure a : Except γ α) = Except.ok a := rfl

theorem pyStr_str (s : String) : pyStr (PyVal.str s) = s := rfl

/-- The message the proxy handler formats for a resolved name. -/
def successMsg (name : String) : String :=
  "Hello, " ++ name ++ "! Your request was successful."

/-- The serialized body the proxy handler produces for a given message. -/
def proxyBody (msg : String) : String :=
  jsonDumpsStrObj [("message", msg), ("status", "success")]

/-- The full response dictionary the proxy handler returns for a given
message: fixed status code 200, fixed JSON content-type header, serialized
body. -/
def proxyResponse (msg : String) : PyVal :=
  PyVal.dict [("statusCode", PyVal.int 200),
    ("headers", PyVal.dict [("Content-Type", PyVal.str "application/json")]),
    ("body", PyVal.str (proxyBody msg))]

/-- Whether a Python value is a string. -/
def isStr : PyVal → Bool
  | PyVal.str _ => true
  | _ => false

/-- Whether a Python value is a dictionary. -/
def isDict : PyVal → Bool
  | PyVal.dict _ => true
  | _ => false

/-- Evaluation of the proxy handler when the event holds a dictionary of
query parameters that contains a `name` entry. -/
theorem proxy_eval_qsp_name (context : PyVal) (es qs : List (String × PyVal)) (X : PyVal)
    (hq : lookupKey es "queryStringParameters" = some (PyVal.dict qs))
    (hn : lookupKey qs "name" = some X) :
    HttpGetLambdaFunction.lambda_handler (PyVal.dict es) context =
      Except.ok (proxyResponse (successMsg (pyStr X))) := by
  have hv : pyGet (PyVal.dict es) "queryStringParameters" = Except.ok (PyVal.dict qs) := by
    simp [pyGet, pyGetD, hq]
  have hqs : qs ≠ [] := by
    intro h; subst h; simp [lookupKey] at hn
  have htr : truthy (PyVal.dict qs) = true := by
    cases qs with
    | nil => exact absurd rfl hqs
    | cons a l => simp [truthy]
  have hname : pyGetD (PyVal.dict qs) "name" (PyVal.str "World") = Except.ok X := by
    simp [pyGetD, hn]
  simp [HttpGetLambdaFunction.lambda_handler, hv, htr, hname, proxyResponse, proxyBody,
    successMsg, except_ok_bind, except_map_ok]

/-- Evaluation of the proxy handler when the `queryStringParameters` value
is present but falsy: the guard skips the nested lookup and the name stays
`"World"`. -/
theorem proxy_eval_falsy (context : PyVal) (es : List (String × PyVal)) (v : PyVal)
    (hq : lookupKey es "queryStringParameters" = some v) (hf : truthy v = false) :
    HttpGetLambdaFunction.lambda_handler (PyVal.dict es) context =
      Except.ok (proxyResponse (successMsg "World")) := by
  have hv : pyGet (PyVal.dict es) "queryStringParameters" = Except.ok v := by
    simp [pyGet, pyGetD, hq]
  simp [HttpGetLambdaFunction.lambda_handler, hv, hf, proxyResponse, proxyBody, successMsg,
    pyStr, except_ok_bind, except_map_ok, except_pure]

/-- Evaluation of the proxy handler when the event has no
`queryStringParameters` entry: `event.get` returns `None`, which is falsy. -/
theorem proxy_eval_absent (context : PyVal) (es : List (String × PyVal))
    (hq : lookupKey es "queryStringParameters" = Option.none) :
    HttpGetLambdaFunction.lambda_handler (PyVal.dict es) context =
      Except.ok (proxyResponse (successMsg "World")) := by
  have hv : pyGet (PyVal.dict es) "queryStringParameters" = Except.ok PyVal.none := by
    simp [pyGet, pyGetD, hq]
  simp [HttpGetLambdaFunction.lambda_handler, hv, truthy, proxyResponse, proxyBody, successMsg,
    pyStr, except_ok_bind, except_map_ok, except_pure]

/-- Evaluation of the proxy handler when the query-parameter mapping is a
dictionary without a `name` entry: `.get('name', name)` falls back to the
default `"World"` (whether the dictionary is empty, hence falsy, or not). -/
theorem proxy_eval_qsp_noname (context : PyVal) (es qs : List (String × PyVal))
    (hq : lookupKey es "queryStringParameters" = some (PyVal.dict qs))
    (hn : lookupKey qs "name" = Option.none) :
    HttpGetLambdaFunction.lambda_handler (PyVal.dict es) context =
      Except.ok (proxyResponse (successMsg "World")) := by
  have hv : pyGet (PyVal.dict es) "queryStringParameters" = Except.ok (PyVal.dict qs) := by
    simp [pyGet, pyGetD, hq]
  cases qs with
  | nil =>
    simp [HttpGetLambdaFunction.lambda_handler, hv, truthy, proxyResponse, proxyBody, successMsg,
      pyStr, except_ok_bind, except_map_ok, except_pure]
  | cons a l =>
    have hname : pyGetD (PyVal.dict (a :: l)) "name" (PyVal.str "World") =
        Except.ok (PyVal.str "World") := by
      simp [pyGetD, hn]
    simp [HttpGetLambdaFunction.lambda_handler, hv, truthy, hname, proxyResponse, proxyBody,
      successMsg, pyStr, except_ok_bind, except_map_ok]

/-- Evaluation of the plain handler on any dictionary event. -/
theorem plain_eval (context : PyVal) (es : List (String × PyVal)) :
    NonProxyLambdaProcessor.lambda_handler (PyVal.dict es) context =
      Except.ok (PyVal.dict [("greeting", PyVal.str ("Hello from non-proxy, " ++
        pyStr ((lookupKey es "name").getD (PyVal.str "World")) ++ "!"))]) := by
  simp [NonProxyLambdaProcessor.lambda_handler, pyGetD, except_ok_bind]

/-- Every successful proxy-handler result is `proxyResponse msg` for some
message: the status code and headers are fixed constants. -/
theorem proxy_ok_shape (event context r : PyVal)
    (h : HttpGetLambdaFunction.lambda_handler event context = Except.ok r) :
    ∃ msg, r = proxyResponse msg := by
  rw [HttpGetLambdaFunction.lambda_handler] at h
  rcases hE : pyGet event "queryStringParameters" with e | q <;> rw [hE] at h
  · rw [except_error_bind] at h
    exact absurd h (by simp)
  · rw [except_ok_bind] at h
    rcases htr : truthy q with _ | _ <;> rw [htr] at h
    · rw [if_neg Bool.false_ne_true] at h
      simp only [except_pure, except_ok_bind] at h
      injection h with h2
      exact ⟨successMsg "World", h2.symm⟩
    · rw [if_pos rfl] at h
      simp only [except_ok_bind] at h
      rcases hN : pyGetD q "name" (PyVal.str "World") with e | name <;> rw [hN] at h
      · rw [except_error_bind] at h
        exact absurd h (by simp)
      · simp only [except_ok_bind, except_pure] at h
        injection h with h2
        exact ⟨successMsg (pyStr name), h2.symm⟩

/-! ### Claim theorems -/

/-- C1: for every event whose `queryStringParameters` entry is a mapping
containing a string value `X` under `name`, the proxy handler returns the
200 response whose body, once JSON-decoded, is an object with `message`
equal to `"Hello, " ++ X ++ "! Your request was successful."` — `X`
embedded verbatim, no trimming, escaping or length limit — and `status`
equal to `"success"`. -/
theorem C1_proxy_name_decoded_message (context : PyVal) (es qs : List (String × PyVal))
    (X : String)
    (hq : lookupKey es "queryStringParameters" = some (PyVal.dict qs))
    (hn : lookupKey qs "name" = some (PyVal.str X)) :
    HttpGetLambdaFunction.lambda_handler (PyVal.dict es) context =
      Except.ok (proxyResponse (successMsg X)) ∧
    decodeTwoStrObj (proxyBody (successMsg X)) =
      some (("message", "Hello, " ++ X ++ "! Your request was successful."),
        ("status", "success")) :=
  ⟨by rw [proxy_eval_qsp_name context es qs (PyVal.str X) hq hn, pyStr_str],
   by rw [proxyBody]; exact decodeTwoStrObj_dumps "message" (successMsg X) "status" "success"⟩

theorem C1_witness :
    lookupKey [("queryStringParameters", PyVal.dict [("name", PyVal.str "Ada")])]
      "queryStringParameters" = some (PyVal.dict [("name", PyVal.str "Ada")]) ∧
    lookupKey [("name", PyVal.str "Ada")] "name" = some (PyVal.str "Ada") ∧
    (HttpGetLambdaFunction.lambda_handler
        (PyVal.dict [("queryStringParameters", PyVal.dict [("name", PyVal.str "Ada")])])
        PyVal.none =
      Except.ok (proxyResponse (successMsg "Ada")) ∧
     decodeTwoStrObj (proxyBody (successMsg "Ada")) =
      some (("message", "Hello, " ++ "Ada" ++ "! Your request was successful."),
        ("status", "success"))) :=
  ⟨rfl, rfl, C1_proxy_name_decoded_message PyVal.none
    [("queryStringParameters", PyVal.dict [("name", PyVal.str "Ada")])]
    [("name", PyVal.str "Ada")] "Ada" rfl rfl⟩

/-- C2: for every event that lacks the name field — for the proxy handler,
no `queryStringParameters` entry or a query-parameter mapping without
`name`; for the plain handler, no top-level `name` entry — the returned
greeting contains the literal `"World"`: the proxy body message is
`"Hello, World! Your request was successful."` and the plain greeting is
`"Hello from non-proxy, World!"`. -/
theorem C2_missing_name_defaults_world (context : PyVal) (es : List (String × PyVal)) :
    ((lookupKey es "queryStringParameters" = Option.none ∨
      ∃ qs, lookupKey es "queryStringParameters" = some (PyVal.dict qs) ∧
        lookupKey qs "name" = Option.none) →
      HttpGetLambdaFunction.lambda_handler (PyVal.dict es) context =
        Except.ok (proxyResponse (successMsg "World"))) ∧
    (lookupKey es "name" = Option.none →
      NonProxyLambdaProcessor.lambda_handler (PyVal.dict es) context =
        Except.ok (PyVal.dict [("greeting", PyVal.str "Hello from non-proxy, World!")])) := by
  constructor
  · rintro (h | ⟨qs, hq, hn⟩)
    · exact proxy_eval_absent context es h
    · exact proxy_eval_qsp_noname context es qs hq hn
  · intro h
    rw [plain_eval context es, h]
    exact rfl

theorem C2_witness :
    lookupKey ([] : List (String × PyVal)) "queryStringParameters" = Option.none ∧
    lookupKey ([] : List (String × PyVal)) "name" = Option.none ∧
    HttpGetLambdaFunction.lambda_handler (PyVal.dict []) PyVal.none =
      Except.ok (proxyResponse (successMsg "World")) ∧
    NonProxyLambdaProcessor.lambda_handler (PyVal.dict []) PyVal.none =
      Except.ok (PyVal.dict [("greeting", PyVal.str "Hello from non-proxy, World!")]) :=
  ⟨rfl, rfl, (C2_missing_name_defaults_world PyVal.none []).1 (Or.inl rfl),
    (C2_missing_name_defaults_world PyVal.none []).2 rfl⟩

/-- C3: for every event supplying a string value `X` under the top-level
key `name`, the plain handler returns exactly the one-key mapping
`greeting = "Hello from non-proxy, " ++ X ++ "!"`. -/
theorem C3_plain_greeting (context : PyVal) (es : List (String × PyVal)) (X : String)
    (h : lookupKey es "name" = some (PyVal.str X)) :
    NonProxyLambdaProcessor.lambda_handler (PyVal.dict es) context =
      Except.ok (PyVal.dict
        [("greeting", PyVal.str ("Hello from non-proxy, " ++ X ++ "!"))]) := by
  rw [plain_eval context es, h]
  exact rfl

theorem C3_witness :
    lookupKey [("name", PyVal.str "Ada")] "name" = some (PyVal.str "Ada") ∧
    NonProxyLambdaProcessor.lambda_handler (PyVal.dict [("name", PyVal.str "Ada")])
      PyVal.none =
      Except.ok (PyVal.dict
        [("greeting", PyVal.str ("Hello from non-proxy, " ++ "Ada" ++ "!"))]) :=
  ⟨rfl, C3_plain_greeting PyVal.none [("name", PyVal.str "Ada")] "Ada" rfl⟩

/-- C4: whenever the proxy handler returns at all, the returned response
has `statusCode` exactly 200 and `headers` exactly the mapping
`Content-Type: application/json`, independently of the event. -/
theorem C4_fixed_status_headers (event context r : PyVal)
    (h : HttpGetLambdaFunction.lambda_handler event context = Except.ok r) :
    ∃ fields, r = PyVal.dict fields ∧
      lookupKey fields "statusCode" = some (PyVal.int 200) ∧
      lookupKey fields "headers" =
        some (PyVal.dict [("Content-Type", PyVal.str "application/json")]) := by
  obtain ⟨msg, rfl⟩ := proxy_ok_shape event context r h
  exact ⟨_, rfl, rfl, rfl⟩

theorem C4_witness :
    HttpGetLambdaFunction.lambda_handler (PyVal.dict []) PyVal.none =
      Except.ok (proxyResponse (successMsg "World")) ∧
    ∃ fields, proxyResponse (successMsg "World") = PyVal.dict fields ∧
      lookupKey fields "statusCode" = some (PyVal.int 200) ∧
      lookupKey fields "headers" =
        some (PyVal.dict [("Content-Type", PyVal.str "application/json")]) :=
  ⟨rfl, C4_fixed_status_headers (PyVal.dict []) PyVal.none
    (proxyResponse (successMsg "World")) rfl⟩

/-! ### Bit-exact body shape for escape-free names (claim C5) -/

theorem escapeList_id (l : List Char)
    (hs : ∀ c ∈ l, 0x20 ≤ c.toNat ∧ c.toNat ≤ 0x7e ∧ c ≠ '"' ∧ c ≠ '\\') :
    escapeList l = l := by
  induction l with
  | nil => rfl
  | cons c cs ih =>
    obtain ⟨h1, h2, h3, h4⟩ := hs c (List.mem_cons_self c cs)
    rw [escapeList, jsonEscapeChar_plain c h3 h4 h1 h2,
      ih fun d hd => hs d (List.mem_cons_of_mem c hd)]
    rfl

theorem jsonQuote_safe (s : String)
    (hs : ∀ c ∈ s.data, 0x20 ≤ c.toNat ∧ c.toNat ≤ 0x7e ∧ c ≠ '"' ∧ c ≠ '\\') :
    jsonQuote s = "\"" ++ s ++ "\"" := by
  rw [jsonQuote, escapeList_id s.data hs]

theorem safe_successMsg (N : String)
    (hs : ∀ c ∈ N.data, 0x20 ≤ c.toNat ∧ c.toNat ≤ 0x7e ∧ c ≠ '"' ∧ c ≠ '\\') :
    ∀ c ∈ (successMsg N).data,
      0x20 ≤ c.toNat ∧ c.toNat ≤ 0x7e ∧ c ≠ '"' ∧ c ≠ '\\' := by
  intro c hc
  rw [successMsg] at hc
  simp only [String.data_append, List.mem_append] at hc
  rcases hc with (hc | hc) | hc
  · exact (by decide :
      ∀ c ∈ "Hello, ".data, 0x20 ≤ c.toNat ∧ c.toNat ≤ 0x7e ∧ c ≠ '"' ∧ c ≠ '\\') c hc
  · exact hs c hc
  · exact (by decide :
      ∀ c ∈ "! Your request was successful.".data,
        0x20 ≤ c.toNat ∧ c.toNat ≤ 0x7e ∧ c ≠ '"' ∧ c ≠ '\\') c hc

theorem proxyBody_safe (N : String)
    (hs : ∀ c ∈ N.data, 0x20 ≤ c.toNat ∧ c.toNat ≤ 0x7e ∧ c ≠ '"' ∧ c ≠ '\\') :
    proxyBody (successMsg N) =
      "\x7b\"message\": \"Hello, " ++ N ++
        "! Your request was successful.\", \"status\": \"success\"\x7d" := by
  have hq : jsonQuote (successMsg N) = "\"" ++ successMsg N ++ "\"" :=
    jsonQuote_safe _ (safe_successMsg N hs)
  apply String.ext
  rw [proxyBody, jsonDumpsStrObj]
  simp only [dumpEntries]
  rw [hq]
  simp only [String.data_append, List.append_assoc, successMsg]
  rfl

/-- C5 counterexample: for the resolved name consisting of one double-quote
character, the body is not the raw template with the name inserted
verbatim — `json.dumps` escapes the quote in the serialized body. -/
theorem C5_counterexample :
    HttpGetLambdaFunction.lambda_handler
        (PyVal.dict [("queryStringParameters", PyVal.dict [("name", PyVal.str "\"")])])
        PyVal.none =
      Except.ok (proxyResponse (successMsg "\"")) ∧
    proxyBody (successMsg "\"") ≠
      "\x7b\"message\": \"Hello, \"! Your request was successful.\", \"status\": \"success\"\x7d" :=
  ⟨rfl, by decide⟩

/-- C5 (amended): for every resolved name `N` all of whose characters are
printable ASCII other than the double quote and the backslash (so that
`json.dumps` escapes nothing), the proxy body is bit-exact: it equals the
character sequence
`{"message": "Hello, N! Your request was successful.", "status": "success"}`
with `message` serialized before `status` and a space after each colon and
the comma. -/
theorem C5_amended_bitexact (context : PyVal) (es qs : List (String × PyVal)) (N : String)
    (hq : lookupKey es "queryStringParameters" = some (PyVal.dict qs))
    (hn : lookupKey qs "name" = some (PyVal.str N))
    (hs : ∀ c ∈ N.data, 0x20 ≤ c.toNat ∧ c.toNat ≤ 0x7e ∧ c ≠ '"' ∧ c ≠ '\\') :
    HttpGetLambdaFunction.lambda_handler (PyVal.dict es) context =
      Except.ok (proxyResponse (successMsg N)) ∧
    proxyBody (successMsg N) =
      "\x7b\"message\": \"Hello, " ++ N ++
        "! Your request was successful.\", \"status\": \"success\"\x7d" :=
  ⟨by rw [proxy_eval_qsp_name context es qs (PyVal.str N) hq hn, pyStr_str],
   proxyBody_safe N hs⟩

theorem C5_witness :
    lookupKey [("queryStringParameters", PyVal.dict [("name", PyVal.str "Ada")])]
      "queryStringParameters" = some (PyVal.dict [("name", PyVal.str "Ada")]) ∧
    lookupKey [("name", PyVal.str "Ada")] "name" = some (PyVal.str "Ada") ∧
    (∀ c ∈ "Ada".data, 0x20 ≤ c.toNat ∧ c.toNat ≤ 0x7e ∧ c ≠ '"' ∧ c ≠ '\\') ∧
    (HttpGetLambdaFunction.lambda_handler
        (PyVal.dict [("queryStringParameters", PyVal.dict [("name", PyVal.str "Ada")])])
        PyVal.none =
      Except.ok (proxyResponse (successMsg "Ada")) ∧
     proxyBody (successMsg "Ada") =
      "\x7b\"message\": \"Hello, " ++ "Ada" ++
        "! Your request was successful.\", \"status\": \"success\"\x7d") :=
  ⟨rfl, rfl, by decide, C5_amended_bitexact PyVal.none
    [("queryStringParameters", PyVal.dict [("name", PyVal.str "Ada")])]
    [("name", PyVal.str "Ada")] "Ada" rfl rfl (by decide)⟩

/-- Evaluation of the proxy handler when the `queryStringParameters` value
is truthy but not a dictionary: the `.get('name', name)` attribute access
raises `AttributeError`, which propagates uncaught. -/
theorem proxy_eval_truthy_nondict (context : PyVal) (es : List (String × PyVal)) (v : PyVal)
    (hp : lookupKey es "queryStringParameters" = some v)
    (ht : truthy v = true) (hd : isDict v = false) :
    HttpGetLambdaFunction.lambda_handler (PyVal.dict es) context =
      Except.error attrError := by
  have hv : pyGet (PyVal.dict es) "queryStringParameters" = Except.ok v := by
    simp [pyGet, pyGetD, hp]
  have hN : pyGetD v "name" (PyVal.str "World") = Except.error attrError := by
    cases v <;> simp_all [pyGetD, isDict]
  simp [HttpGetLambdaFunction.lambda_handler, hv, ht, hN, except_ok_bind, except_error_bind]

/-- C6 counterexample: the event whose `queryStringParameters` value is the
number 0 — present and not a mapping — does not fault: the truthiness guard
skips the nested lookup and the handler returns the normal 200 response
with the default `"World"` greeting, contradicting the claim that every
present non-mapping value faults. -/
theorem C6_counterexample :
    HttpGetLambdaFunction.lambda_handler
        (PyVal.dict [("queryStringParameters", PyVal.int 0)]) PyVal.none =
      Except.ok (proxyResponse (successMsg "World")) := rfl

/-- C6 (amended): for every event whose `queryStringParameters` value is
present, truthy, and not a mapping, the proxy handler does not produce a
normal response: the unguarded `.get` access raises `AttributeError`, which
the handler neither catches nor translates — the error propagates and no
partial or default response is returned. -/
theorem C6_amended_truthy_nonmapping_faults (context : PyVal)
    (es : List (String × PyVal)) (v : PyVal)
    (hp : lookupKey es "queryStringParameters" = some v)
    (ht : truthy v = true) (hd : isDict v = false) :
    HttpGetLambdaFunction.lambda_handler (PyVal.dict es) context =
      Except.error attrError :=
  proxy_eval_truthy_nondict context es v hp ht hd

theorem C6_witness :
    lookupKey [("queryStringParameters", PyVal.str "x")] "queryStringParameters" =
      some (PyVal.str "x") ∧
    truthy (PyVal.str "x") = true ∧
    isDict (PyVal.str "x") = false ∧
    HttpGetLambdaFunction.lambda_handler
        (PyVal.dict [("queryStringParameters", PyVal.str "x")]) PyVal.none =
      Except.error attrError :=
  ⟨rfl, by decide, rfl, C6_amended_truthy_nonmapping_faults PyVal.none
    [("queryStringParameters", PyVal.str "x")] (PyVal.str "x") rfl (by decide) rfl⟩

/-- C7: both handlers are deterministic pure functions of the event alone:
with the same event and any two (possibly different) context values, the
returned results are identical — the context argument has no influence. -/
theorem C7_context_independent (event c1 c2 : PyVal) :
    HttpGetLambdaFunction.lambda_handler event c1 =
      HttpGetLambdaFunction.lambda_handler event c2 ∧
    NonProxyLambdaProcessor.lambda_handler event c1 =
      NonProxyLambdaProcessor.lambda_handler event c2 :=
  ⟨rfl, rfl⟩

/-- C8: for every event whose `queryStringParameters` entry is present but
falsy (an empty mapping, `None`, an empty string, 0, ...), the proxy
handler does not fault: the truthiness guard skips the nested lookup and
the handler returns the normal 200 response with the default `"World"`
greeting. -/
theorem C8_falsy_qsp_no_fault (context : PyVal) (es : List (String × PyVal)) (v : PyVal)
    (hp : lookupKey es "queryStringParameters" = some v) (hf : truthy v = false) :
    HttpGetLambdaFunction.lambda_handler (PyVal.dict es) context =
      Except.ok (proxyResponse (successMsg "World")) :=
  proxy_eval_falsy context es v hp hf

theorem C8_witness :
    lookupKey [("queryStringParameters", PyVal.dict [])] "queryStringParameters" =
      some (PyVal.dict []) ∧
    truthy (PyVal.dict []) = false ∧
    HttpGetLambdaFunction.lambda_handler
        (PyVal.dict [("queryStringParameters", PyVal.dict [])]) PyVal.none =
      Except.ok (proxyResponse (successMsg "World")) :=
  ⟨rfl, rfl, C8_falsy_qsp_no_fault PyVal.none [("queryStringParameters", PyVal.dict [])]
    (PyVal.dict []) rfl rfl⟩

/-- C9: for every event supplying a non-string value `X` under the name key
(a number, `None`, a list, ...), both handlers succeed and embed the
`str()` representation of `X` into the greeting via the f-string coercion;
no type error is raised at the formatting step. -/
theorem C9_nonstring_name_coerced (context : PyVal)
    (es qs es2 : List (String × PyVal)) (X : PyVal) (hx : isStr X = false) :
    (lookupKey es "queryStringParameters" = some (PyVal.dict qs) →
      lookupKey qs "name" = some X →
      HttpGetLambdaFunction.lambda_handler (PyVal.dict es) context =
        Except.ok (proxyResponse (successMsg (pyStr X)))) ∧
    (lookupKey es2 "name" = some X →
      NonProxyLambdaProcessor.lambda_handler (PyVal.dict es2) context =
        Except.ok (PyVal.dict
          [("greeting", PyVal.str ("Hello from non-proxy, " ++ pyStr X ++ "!"))])) := by
  constructor
  · intro hq hn
    exact proxy_eval_qsp_name context es qs X hq hn
  · intro h
    rw [plain_eval context es2, h]
    exact rfl

theorem C9_witness :
    isStr (PyVal.int 42) = false ∧
    lookupKey [("queryStringParameters", PyVal.dict [("name", PyVal.int 42)])]
      "queryStringParameters" = some (PyVal.dict [("name", PyVal.int 42)]) ∧
    lookupKey [("name", PyVal.int 42)] "name" = some (PyVal.int 42) ∧
    HttpGetLambdaFunction.lambda_handler
        (PyVal.dict [("queryStringParameters", PyVal.dict [("name", PyVal.int 42)])])
        PyVal.none =
      Except.ok (proxyResponse (successMsg "42")) ∧
    NonProxyLambdaProcessor.lambda_handler (PyVal.dict [("name", PyVal.int 42)])
        PyVal.none =
      Except.ok (PyVal.dict
        [("greeting", PyVal.str ("Hello from non-proxy, " ++ "42" ++ "!"))]) :=
  ⟨rfl, rfl, rfl,
    (C9_nonstring_name_coerced PyVal.none
      [("queryStringParameters", PyVal.dict [("name", PyVal.int 42)])]
      [("name", PyVal.int 42)] [("name", PyVal.int 42)] (PyVal.int 42) rfl).1 rfl rfl,
    (C9_nonstring_name_coerced PyVal.none
      [("queryStringParameters", PyVal.dict [("name", PyVal.int 42)])]
      [("name", PyVal.int 42)] [("name", PyVal.int 42)] (PyVal.int 42) rfl).2 rfl⟩

/-- C10: the plain handler is total over mapping events: for every event
that is a dictionary it never raises and always returns a mapping with
exactly one key, `greeting`, whose value is a string beginning with
`"Hello from non-proxy, "` and ending with `"!"`. -/
theorem C10_plain_total_on_dicts (context : PyVal) (es : List (String × PyVal)) :
    ∃ g, NonProxyLambdaProcessor.lambda_handler (PyVal.dict es) context =
      Except.ok (PyVal.dict
        [("greeting", PyVal.str ("Hello from non-proxy, " ++ g ++ "!"))]) :=
  ⟨pyStr ((lookupKey es "name").getD (PyVal.str "World")), plain_eval context es⟩
